import Mathlib

/-!
A shallow embedding of the extraction-and-normalization pipeline of the
MPC-Plus repository (src/data_manipulation): the beam-type dispatcher
(`ETL/DataProcessor.py`), the CSV field extractor (`ETL/data_extractor.py`),
the beam models (`models/EBeamModel.py`, `models/XBeamModel.py`,
`models/Geo6xfffModel.py`, `models/AbstractBeamModel.py`), and the
path-metadata helpers they use.

Python `Decimal` values are modelled as `Rat` (the extractor only stores
parsed decimal literals of the form `[+-]digits[.digits]`, which `Rat`
represents exactly; exponent forms and special values never occur in the
data handled by the claims).  Python `datetime` is a record of six naturals.
A raised-or-returned Python call is an explicitly tagged `PyResult`.
-/

set_option autoImplicit false

namespace MPC

/-- The whitespace characters recognised by Python `str.strip` / `str.split`. -/
def isPySpace (c : Char) : Bool :=
  c = ' ' || c = '\t' || c = '\n' || c = '\r' || c = '\x0b' || c = '\x0c'

/-- Python `str.strip()` on a list of characters. -/
def pyStripL (l : List Char) : List Char :=
  ((l.dropWhile isPySpace).reverse.dropWhile isPySpace).reverse

/-- Python `str.strip()`. -/
def pyStripS (s : String) : String :=
  ⟨pyStripL s.data⟩

/-- Python `str.lower()` (ASCII as used by the sources). -/
def pyLowerS (s : String) : String :=
  ⟨s.data.map Char.toLower⟩

/-- Whether `needle` occurs as a contiguous sublist of `hay`
(Python `needle in hay` on strings). -/
def subAt (needle : List Char) : List Char → Bool
  | [] => needle.isEmpty
  | c :: rest => needle.isPrefixOf (c :: rest) || subAt needle rest

/-- Python `pat in hay` (substring containment). -/
def strContains (hay pat : String) : Bool :=
  subAt pat.data hay.data

/-- `os.path.join a b` for a relative `b`, as used by the sources. -/
def pyJoinS (a b : String) : String :=
  if a = "" then b
  else if a.data.getLast? = some '/' then a ++ b
  else a ++ "/" ++ b

/-- `os.path.dirname`: everything before the last slash (as used on the
`"<dir>/Results.csv"` arguments the sources pass it). -/
def pyDirname (s : String) : String :=
  let rev := s.data.reverse
  let rest := rev.dropWhile (fun c => c ≠ '/')
  match rest with
  | [] => ""
  | _ :: t => ⟨t.reverse⟩

/-- Numeric value of a list of decimal digits. -/
def digitsVal (l : List Char) : Nat :=
  l.foldl (fun a c => a * 10 + (c.toNat - '0'.toNat)) 0

/-- A nonempty all-digit list parsed as a natural number. -/
def digitsNat? (l : List Char) : Option Nat :=
  if l ≠ [] ∧ l.all Char.isDigit then some (digitsVal l) else none

/-- Python `int(s)`: surrounding whitespace, optional sign, digits. -/
def pyInt? (s : String) : Option Int :=
  match pyStripL s.data with
  | '+' :: r => (digitsNat? r).map Int.ofNat
  | '-' :: r => (digitsNat? r).map (fun n => -(n : Int))
  | r => (digitsNat? r).map Int.ofNat

/-- Unsigned decimal literal `digits[.digits]` (at least one digit in all),
the shape of every value `decimal.Decimal` accepts in the exports the
claims exercise. -/
def decUnsigned (l : List Char) : Option Rat :=
  let intPart := l.takeWhile Char.isDigit
  let rest := l.dropWhile Char.isDigit
  match rest with
  | [] => if intPart.isEmpty then none else some ((digitsVal intPart : Int) : Rat)
  | '.' :: frac =>
      if frac.all Char.isDigit && !(intPart.isEmpty && frac.isEmpty) then
        some (mkRat (digitsVal intPart * 10 ^ frac.length + digitsVal frac) (10 ^ frac.length))
      else none
  | _ => none

/-- Python `decimal.Decimal(s)` on the literal forms occurring in the data:
optional surrounding whitespace, optional sign, `digits[.digits]`.
`none` models a raised `InvalidOperation`. -/
def pyDecimal? (s : String) : Option Rat :=
  match pyStripL s.data with
  | '+' :: r => decUnsigned r
  | '-' :: r => (decUnsigned r).map (fun q => -q)
  | r => decUnsigned r

/-- Index of the first occurrence of `sep` in `l`, if any. -/
def findSubIdx? (sep : List Char) : List Char → Option Nat
  | [] => if sep.isEmpty then some 0 else none
  | c :: rest =>
      if sep.isPrefixOf (c :: rest) then some 0
      else (findSubIdx? sep rest).map (· + 1)

/-- Fuelled worker for `pySplit`: splits on each occurrence of `sep`,
left to right.  The fuel `l.length + 1` suffices for every nonempty `sep`. -/
def splitGo (sep : List Char) : Nat → List Char → List (List Char)
  | 0, l => [l]
  | fuel + 1, l =>
      match findSubIdx? sep l with
      | none => [l]
      | some i => l.take i :: splitGo sep fuel (l.drop (i + sep.length))

/-- Python `s.split(sep)` for a nonempty separator. -/
def pySplit (s sep : String) : List String :=
  (splitGo sep.data (s.data.length + 1) s.data).map (fun l => ⟨l⟩)

/-- Python `s.split()[0]`: the first maximal run of non-whitespace. -/
def pyFirstWsToken (s : String) : String :=
  ⟨(s.data.dropWhile isPySpace).takeWhile (fun c => !isPySpace c)⟩

/-- Python `s.split('[')[0]`: everything before the first `[`. -/
def takeToBracket (s : String) : String :=
  ⟨s.data.takeWhile (fun c => c ≠ '[')⟩

/-- The value of `datetime.strptime(s, "%Y-%m-%d-%H-%M-%S")`. -/
structure PyDateTime where
  year : Nat
  month : Nat
  day : Nat
  hour : Nat
  minute : Nat
  second : Nat
deriving DecidableEq

/-- Basic range validation performed by `datetime.strptime`.
(Day-per-month refinement is irrelevant to the inputs the claims use.) -/
def PyDateTime.valid (d : PyDateTime) : Bool :=
  1 ≤ d.month && d.month ≤ 12 && 1 ≤ d.day && d.day ≤ 31 &&
  d.hour ≤ 23 && d.minute ≤ 59 && d.second ≤ 59

/-- One digit character to its value. -/
def digVal (c : Char) : Nat :=
  c.toNat - '0'.toNat

/-- Try to match the regex `\d{4}-\d{2}-\d{2}-\d{2}-\d{2}-\d{2}` at the
head of the character list. -/
def matchDateAt : List Char → Option PyDateTime
  | a :: b :: c :: d :: '-' :: e :: f :: '-' :: g :: h :: '-' ::
      i :: j :: '-' :: k :: l :: '-' :: m :: n :: _ =>
      if [a, b, c, d, e, f, g, h, i, j, k, l, m, n].all Char.isDigit then
        some { year := digitsVal [a, b, c, d], month := digitsVal [e, f],
               day := digitsVal [g, h], hour := digitsVal [i, j],
               minute := digitsVal [k, l], second := digitsVal [m, n] }
      else none
  | _ => none

/-- Leftmost match of the date pattern (Python `re.search`). -/
def findDate : List Char → Option PyDateTime
  | [] => none
  | c :: rest =>
      match matchDateAt (c :: rest) with
      | some d => some d
      | none => findDate rest

/-- Leftmost match of `SN(\d+)` (Python `re.search`); returns the digit run. -/
def findSN : List Char → Option (List Char)
  | [] => none
  | x :: t =>
      match x, t with
      | 'S', 'N' :: c :: r =>
          if c.isDigit then some (c :: r.takeWhile Char.isDigit)
          else findSN t
      | _, _ => findSN t

/-- The exception classes raised (or caught) by the embedded code. -/
inductive PyError where
  | fileNotFound (path : String)
  | csvError
  | valueError (msg : String)
  | attributeError (cls meth : String)
deriving DecidableEq

/-- Outcome of a Python call: a returned value or a propagated exception. -/
inductive PyResult (α : Type) where
  | ok (val : α)
  | exn (err : PyError)
deriving DecidableEq

/-- Whether a call returned normally. -/
def PyResult.isOk {α : Type} : PyResult α → Bool
  | .ok _ => true
  | .exn _ => false

/-- What the module-level `logging` logger records during extraction. -/
inductive LogEvent where
  | csvNotFound (path : String)
  | csvParse
  | otherError
deriving DecidableEq

/-- One data row of `Results.csv`: the `Name [Unit]` and ` Value` columns
(empty string models a missing column, exactly what `row.get(..., '')`
yields). -/
structure CsvRow where
  name : String
  value : String
deriving DecidableEq

/-- A parsed CSV file seen through `csv.DictReader`: rows in order, where
`none` marks a row at which the reader raises `csv.Error`. -/
structure CsvFile where
  rows : List (Option CsvRow)
deriving DecidableEq

/-- Contents of an XML file as far as `_getIsBaselineFromPathName` looks at
it: either unparsable, or a document whose namespaced `IsBaseline` element
carries the given text (`none` when the element or its text is absent). -/
inductive XmlDoc where
  | malformed
  | doc (isBaselineText : Option String)
deriving DecidableEq

/-- The files visible to one folder-processing run. -/
structure FileSystem where
  csvFiles : List (String × CsvFile)
  xmlFiles : List (String × XmlDoc)
deriving DecidableEq

/-- `os.path.exists`. -/
def fileExists (fs : FileSystem) (p : String) : Bool :=
  (fs.csvFiles.lookup p).isSome || (fs.xmlFiles.lookup p).isSome

/-- The state of a `models/EBeamModel.py` instance (its `__init__` fields). -/
structure EBeamModel where
  beamType : String
  path : String
  date : Option PyDateTime
  machineId : String
  note : String
  relativeUniformity : Rat
  relativeOutput : Rat
deriving DecidableEq

/-- A freshly constructed `EBeamModel()`: `_type = ""`, `_path = ""`,
`_date = None`, `_machine_id = ""`, `_note = ""`, both decimals `0.0`. -/
def EBeamModel.init : EBeamModel :=
  { beamType := "", path := "", date := none, machineId := "", note := ""
    relativeUniformity := 0, relativeOutput := 0 }

/-- Python-dict assignment `d[k] = v` on an association list preserving
insertion order: update in place if the key exists, else append. -/
def dictSet (d : List (String × Rat)) (k : String) (v : Rat) :
    List (String × Rat) :=
  if d.any (fun p => p.1 == k) then
    d.map (fun p => if p.1 == k then (k, v) else p)
  else d ++ [(k, v)]

/-- The per-bank leaf dictionary built by `Geo6xfffModel.__init__`:
`{f"Leaf{i}": Decimal('0.0') for i in range(11, 51)}`. -/
def leafInitMap : List (String × Rat) :=
  (List.range' 11 40).map (fun i => ("Leaf" ++ toString i, 0))

/-- The state of a `models/Geo6xfffModel.py` instance: the fields set by its
`__init__` plus the `AbstractBeamModel` fields it inherits that the embedded
operations touch (`_type`, `_path`, `_date`, `_machine_SN`, `_baseline`).
The inherited image-analysis slots (`_imageModel`, symmetry/flatness values
and profile graphs) are never read or written by the embedded operations
and are omitted. -/
structure GeoModel where
  beamType : String
  path : String
  date : Option PyDateTime
  machineSN : Option String
  baseline : Bool
  IsoCenterSize : Rat
  IsoCenterMVOffset : Rat
  IsoCenterKVOffset : Rat
  relative_output : Rat
  relative_uniformity : Rat
  center_shift : Rat
  CollimationRotationOffset : Rat
  GantryAbsolute : Rat
  GantryRelative : Rat
  CouchMaxPositionError : Rat
  CouchLat : Rat
  CouchLng : Rat
  CouchVrt : Rat
  CouchRtnFine : Rat
  CouchRtnLarge : Rat
  RotationInducedCouchShiftFullRange : Rat
  MLCLeavesA : List (String × Rat)
  MLCLeavesB : List (String × Rat)
  MaxOffsetA : Rat
  MaxOffsetB : Rat
  MeanOffsetA : Rat
  MeanOffsetB : Rat
  MLCBacklashA : List (String × Rat)
  MLCBacklashB : List (String × Rat)
  MLCBacklashMaxA : Rat
  MLCBacklashMaxB : Rat
  MLCBacklashMeanA : Rat
  MLCBacklashMeanB : Rat
  JawX1 : Rat
  JawX2 : Rat
  JawY1 : Rat
  JawY2 : Rat
  JawParallelismX1 : Rat
  JawParallelismX2 : Rat
  JawParallelismY1 : Rat
  JawParallelismY2 : Rat
deriving DecidableEq

/-- A freshly constructed `Geo6xfffModel()`: every scalar `Decimal('0.0')`,
leaf and backlash dictionaries keyed `Leaf11 .. Leaf50` at `0.0`, and the
inherited defaults (`_type = ""`, `_path = ""`, `_date = None`,
`_machine_SN = None`, `_baseline = False`). -/
def GeoModel.init : GeoModel :=
  { beamType := "", path := "", date := none, machineSN := none, baseline := false
    IsoCenterSize := 0, IsoCenterMVOffset := 0, IsoCenterKVOffset := 0
    relative_output := 0, relative_uniformity := 0, center_shift := 0
    CollimationRotationOffset := 0
    GantryAbsolute := 0, GantryRelative := 0
    CouchMaxPositionError := 0, CouchLat := 0, CouchLng := 0, CouchVrt := 0
    CouchRtnFine := 0, CouchRtnLarge := 0, RotationInducedCouchShiftFullRange := 0
    MLCLeavesA := leafInitMap, MLCLeavesB := leafInitMap
    MaxOffsetA := 0, MaxOffsetB := 0, MeanOffsetA := 0, MeanOffsetB := 0
    MLCBacklashA := leafInitMap, MLCBacklashB := leafInitMap
    MLCBacklashMaxA := 0, MLCBacklashMaxB := 0
    MLCBacklashMeanA := 0, MLCBacklashMeanB := 0
    JawX1 := 0, JawX2 := 0, JawY1 := 0, JawY2 := 0
    JawParallelismX1 := 0, JawParallelismX2 := 0
    JawParallelismY1 := 0, JawParallelismY2 := 0 }

/-- The methods defined by the Python class `XBeamModel`
(`models/XBeamModel.py`), transcribed; `__init__` omitted.  Attribute
lookup of any name not in this list raises `AttributeError`. -/
def XBeamModel.methodNames : List String :=
  ["get_type", "get_date", "get_relative_uniformity", "get_relative_out",
   "get_baseline_iso_x", "get_baseline_iso_y", "get_iso_x", "get_iso_y",
   "_getDateFromPathName",
   "set_type", "set_date", "set_relative_uniformity", "set_relative_out",
   "set_baseline_iso", "set_iso_center",
   "beam_output_change", "beam_uniformity_change", "beam_center_shift"]

/-- Python `hasattr` on an `XBeamModel` instance (methods only; the
instance attributes are all data slots the dispatcher never reads first). -/
def XBeamModel.hasAttr (n : String) : Bool :=
  XBeamModel.methodNames.contains n

/-- The methods defined by `AbstractBeamModel` (`models/AbstractBeamModel.py`),
transcribed; `__init__` omitted. -/
def abstractBeamMethodNames : List String :=
  ["get_type", "get_date", "get_path", "get_machine_SN", "get_baseline",
   "get_image_model", "get_symmetry_horizontal", "get_symmetry_vertical",
   "get_flatness_horizontal", "get_flatness_vertical",
   "get_horizontal_profile_graph", "get_vertical_profile_graph",
   "set_type", "set_path", "set_date", "set_machine_SN", "set_baseline",
   "set_image_model", "set_symmetry_horizontal", "set_symmetry_vertical",
   "set_flatness_horizontal", "set_flatness_vertical",
   "set_horizontal_profile_graph", "set_vertical_profile_graph",
   "_getDateFromPathName", "_getSNFromPathName", "_getIsBaselineFromPathName",
   "set_flat_and_sym_vals_from_image"]

/-- The methods defined by `Geo6xfffModel` itself (`models/Geo6xfffModel.py`),
transcribed; `__init__` omitted. -/
def geoOwnMethodNames : List String :=
  ["get_IsoCenterSize", "set_IsoCenterSize",
   "get_IsoCenterMVOffset", "set_IsoCenterMVOffset",
   "get_IsoCenterKVOffset", "set_IsoCenterKVOffset",
   "get_relative_output", "set_relative_output",
   "get_relative_uniformity", "set_relative_uniformity",
   "get_center_shift", "set_center_shift",
   "get_CollimationRotationOffset", "set_CollimationRotationOffset",
   "get_GantryAbsolute", "set_GantryAbsolute",
   "get_GantryRelative", "set_GantryRelative",
   "get_CouchMaxPositionError", "set_CouchMaxPositionError",
   "get_CouchLat", "set_CouchLat", "get_CouchLng", "set_CouchLng",
   "get_CouchVrt", "set_CouchVrt",
   "get_CouchRtnFine", "set_CouchRtnFine",
   "get_CouchRtnLarge", "set_CouchRtnLarge",
   "get_RotationInducedCouchShiftFullRange",
   "set_RotationInducedCouchShiftFullRange",
   "get_MLCLeafA", "set_MLCLeafA", "get_MLCLeafB", "set_MLCLeafB",
   "get_MaxOffsetA", "set_MaxOffsetA", "get_MaxOffsetB", "set_MaxOffsetB",
   "get_MeanOffsetA", "set_MeanOffsetA", "get_MeanOffsetB", "set_MeanOffsetB",
   "get_MLCBacklashA", "set_MLCBacklashA",
   "get_MLCBacklashB", "set_MLCBacklashB",
   "get_MLCBacklashMaxA", "set_MLCBacklashMaxA",
   "get_MLCBacklashMaxB", "set_MLCBacklashMaxB",
   "get_MLCBacklashMeanA", "set_MLCBacklashMeanA",
   "get_MLCBacklashMeanB", "set_MLCBacklashMeanB",
   "get_JawX1", "set_JawX1", "get_JawX2", "set_JawX2",
   "get_JawY1", "set_JawY1", "get_JawY2", "set_JawY2",
   "get_JawParallelismX1", "set_JawParallelismX1",
   "get_JawParallelismX2", "set_JawParallelismX2",
   "get_JawParallelismY1", "set_JawParallelismY1",
   "get_JawParallelismY2", "set_JawParallelismY2"]

/-- Python `hasattr` on a `Geo6xfffModel` instance: its own methods plus
those inherited from `AbstractBeamModel`. -/
def geoHasAttr (n : String) : Bool :=
  geoOwnMethodNames.contains n || abstractBeamMethodNames.contains n

/-- `DataProcessor._extract_machine_id`: first match of `(SN\d+)` in the
path, or the placeholder `"UNKNOWN"`. -/
def extractMachineId (path : String) : String :=
  match findSN path.data with
  | some ds => "SN" ++ (⟨ds⟩ : String)
  | none => "UNKNOWN"

/-- `AbstractBeamModel._getSNFromPathName`: first match of `SN(\d+)`,
returned as `"SN" + digits`; raises `ValueError` when absent. -/
def getSNFromPathName (path : String) : PyResult String :=
  match findSN path.data with
  | some ds => .ok ("SN" ++ (⟨ds⟩ : String))
  | none => .exn (.valueError ("Could not extract serial number from path: " ++ path))

/-- `_getDateFromPathName` (as defined identically in `AbstractBeamModel`
and `EBeamModel`): leftmost `\d{4}(-\d{2}){5}` match fed to `strptime`;
raises `ValueError` when the pattern is absent or the date invalid. -/
def getDateFromPathName (path : String) : PyResult PyDateTime :=
  match findDate path.data with
  | none => .exn (.valueError ("Could not extract date from path: " ++ path))
  | some d => if d.valid then .ok d else .exn (.valueError "strptime")

/-- `AbstractBeamModel._getIsBaselineFromPathName`: locate `Check.xml` next
to the given `Results.csv` path, raise `FileNotFoundError` when it does not
exist, `ValueError` when it cannot be parsed or lacks the `IsBaseline`
element, and otherwise compare the element text (stripped, lowered) with
`"true"`. -/
def getIsBaselineFromPathName (fs : FileSystem) (pathName : String) :
    PyResult Bool :=
  let checkPath := pyJoinS (pyDirname pathName) "Check.xml"
  if !fileExists fs checkPath then .exn (.fileNotFound checkPath)
  else
    match fs.xmlFiles.lookup checkPath with
    | some (.doc (some txt)) => .ok (pyLowerS (pyStripS txt) == "true")
    | some (.doc none) => .exn (.valueError ("IsBaseline tag not found in file: " ++ checkPath))
    | some .malformed => .exn (.valueError ("Failed to parse XML file: " ++ checkPath))
    | none => .exn (.valueError ("Failed to parse XML file: " ++ checkPath))

/-- One row of `data_extractor.eModelExtraction`'s loop body: strip both
columns, skip the row if either is empty, coerce the value to `Decimal`
(falling back to `Decimal(-1)`), then route by substring on the name. -/
def eStepRow (m : EBeamModel) (row : CsvRow) : EBeamModel :=
  let n := pyStripS row.name
  let v := pyStripS row.value
  if n == "" || v == "" then m
  else
    let decVal := (pyDecimal? v).getD (-1)
    if strContains n "BeamOutputChange" then { m with relativeOutput := decVal }
    else if strContains n "BeamUniformityChange" then { m with relativeUniformity := decVal }
    else m

/-- The reader loop of `eModelExtraction`: rows are processed in order; a
row at which `csv.DictReader` raises `csv.Error` aborts the loop, the
exception is caught by the enclosing handler and logged, and the fields
populated so far are kept (the model is mutated in place in the source). -/
def processEFile : List (Option CsvRow) → EBeamModel → EBeamModel × List LogEvent
  | [], m => (m, [])
  | none :: _, m => (m, [.csvParse])
  | some r :: rest, m => processEFile rest (eStepRow m r)

/-- `data_extractor.eModelExtraction` with every exception handler applied:
the CSV path is `os.path.join(model.path, "Results.csv")` (the model path
is used as a folder path), a missing file logs `FileNotFoundError`, and the
loop otherwise runs to completion or to the first malformed row. -/
def eModelExtractionCaught (files : List (String × CsvFile))
    (m : EBeamModel) : EBeamModel × List LogEvent :=
  let p := pyJoinS m.path "Results.csv"
  match files.lookup p with
  | none => (m, [.csvNotFound p])
  | some f => processEFile f.rows m

/-- `data_extractor.eModelExtraction` as a Python call: its `try` block is
wrapped in `except` clauses for `FileNotFoundError`, `csv.Error` and
`Exception` that log and return, so the call never propagates an
exception. -/
def eModelExtraction (files : List (String × CsvFile))
    (m : EBeamModel) : PyResult (EBeamModel × List LogEvent) :=
  .ok (eModelExtractionCaught files m)

/-- The branch of `data_extractor.geoModelExtraction`'s `if/elif` chain a
(stripped) field name is routed to; `skipRow` is the final implicit
"no pattern matched" case. -/
inductive GeoRoute where
  | isoSize | isoMV | isoKV
  | beamOut | beamUni | beamShift
  | collRot
  | gantryAbs | gantryRel
  | couchMax | couchLat | couchLng | couchVrt
  | couchRtnFine | couchRtnLarge | couchShiftFull
  | leafA | leafB
  | maxOffA | maxOffB | meanOffA | meanOffB
  | backLeafA | backLeafB
  | backMaxA | backMaxB | backMeanA | backMeanB
  | jawX1 | jawX2 | jawY1 | jawY2
  | parX1 | parX2 | parY1 | parY2
  | skipRow
deriving DecidableEq

/-- The `if/elif` chain of `geoModelExtraction`, in source order.  Each
condition is the source's substring test (the leaf branches repeat the
pattern with a leading slash, redundantly, exactly as the source does). -/
def geoRoute (n : String) : GeoRoute :=
  if strContains n "IsoCenterSize" then .isoSize
  else if strContains n "IsoCenterMVOffset" then .isoMV
  else if strContains n "IsoCenterKVOffset" then .isoKV
  else if strContains n "BeamOutputChange" then .beamOut
  else if strContains n "BeamUniformityChange" then .beamUni
  else if strContains n "BeamCenterShift" then .beamShift
  else if strContains n "CollimationRotationOffset" then .collRot
  else if strContains n "GantryAbsolute" then .gantryAbs
  else if strContains n "GantryRelative" then .gantryRel
  else if strContains n "CouchMaxPositionError" then .couchMax
  else if strContains n "CouchLat" then .couchLat
  else if strContains n "CouchLng" then .couchLng
  else if strContains n "CouchVrt" then .couchVrt
  else if strContains n "CouchRtnFine" then .couchRtnFine
  else if strContains n "CouchRtnLarge" then .couchRtnLarge
  else if strContains n "RotationInducedCouchShiftFullRange" then .couchShiftFull
  else if strContains n "MLCLeavesA/MLCLeaf" || strContains n "/MLCLeavesA/MLCLeaf" then .leafA
  else if strContains n "MLCLeavesB/MLCLeaf" || strContains n "/MLCLeavesB/MLCLeaf" then .leafB
  else if strContains n "MLCMaxOffsetA" || strContains n "MaxOffsetA" then .maxOffA
  else if strContains n "MLCMaxOffsetB" || strContains n "MaxOffsetB" then .maxOffB
  else if strContains n "MLCMeanOffsetA" || strContains n "MeanOffsetA" then .meanOffA
  else if strContains n "MLCMeanOffsetB" || strContains n "MeanOffsetB" then .meanOffB
  else if strContains n "MLCBacklashLeavesA/MLCBacklashLeaf" ||
          strContains n "/MLCBacklashLeavesA/MLCBacklashLeaf" then .backLeafA
  else if strContains n "MLCBacklashLeavesB/MLCBacklashLeaf" ||
          strContains n "/MLCBacklashLeavesB/MLCBacklashLeaf" then .backLeafB
  else if strContains n "MLCBacklashMaxA" then .backMaxA
  else if strContains n "MLCBacklashMaxB" then .backMaxB
  else if strContains n "MLCBacklashMeanA" then .backMeanA
  else if strContains n "MLCBacklashMeanB" then .backMeanB
  else if strContains n "JawX1" then .jawX1
  else if strContains n "JawX2" then .jawX2
  else if strContains n "JawY1" then .jawY1
  else if strContains n "JawY2" then .jawY2
  else if strContains n "JawParallelismX1" then .parX1
  else if strContains n "JawParallelismX2" then .parX2
  else if strContains n "JawParallelismY1" then .parY1
  else if strContains n "JawParallelismY2" then .parY2
  else .skipRow

/-- The leaf-index parse used inside the MLC branches: split the name on
the marker (`"MLCLeaf"` or `"MLCBacklashLeaf"`), take the text after the
first occurrence, strip it, cut it at the first space (if the stripped text
contains a space) or at the first `[`, and apply `int`.  `none` models the
`ValueError`/`IndexError` the source catches and turns into `pass`. -/
def parseLeafIdx (n marker : String) : Option Int :=
  let parts := pySplit n marker
  if parts.length > 1 then
    let leafPart := pyStripS (parts.getD 1 "")
    let indexStr :=
      if strContains leafPart " " then pyFirstWsToken leafPart
      else takeToBracket leafPart
    pyInt? indexStr
  else none

/-- The action each chain branch performs on the model (calling the
corresponding `Geo6xfffModel` setter with the coerced value; the MLC
branches first parse and range-check the leaf index, 1–60, and silently
skip the row otherwise). -/
def geoApply (g : GeoModel) (r : GeoRoute) (n : String) (decVal : Rat) : GeoModel :=
  match r with
  | .isoSize => { g with IsoCenterSize := decVal }
  | .isoMV => { g with IsoCenterMVOffset := decVal }
  | .isoKV => { g with IsoCenterKVOffset := decVal }
  | .beamOut => { g with relative_output := decVal }
  | .beamUni => { g with relative_uniformity := decVal }
  | .beamShift => { g with center_shift := decVal }
  | .collRot => { g with CollimationRotationOffset := decVal }
  | .gantryAbs => { g with GantryAbsolute := decVal }
  | .gantryRel => { g with GantryRelative := decVal }
  | .couchMax => { g with CouchMaxPositionError := decVal }
  | .couchLat => { g with CouchLat := decVal }
  | .couchLng => { g with CouchLng := decVal }
  | .couchVrt => { g with CouchVrt := decVal }
  | .couchRtnFine => { g with CouchRtnFine := decVal }
  | .couchRtnLarge => { g with CouchRtnLarge := decVal }
  | .couchShiftFull => { g with RotationInducedCouchShiftFullRange := decVal }
  | .leafA =>
      match parseLeafIdx n "MLCLeaf" with
      | some i =>
          if 1 ≤ i ∧ i ≤ 60 then
            { g with MLCLeavesA := dictSet g.MLCLeavesA ("Leaf" ++ toString i) decVal }
          else g
      | none => g
  | .leafB =>
      match parseLeafIdx n "MLCLeaf" with
      | some i =>
          if 1 ≤ i ∧ i ≤ 60 then
            { g with MLCLeavesB := dictSet g.MLCLeavesB ("Leaf" ++ toString i) decVal }
          else g
      | none => g
  | .maxOffA => { g with MaxOffsetA := decVal }
  | .maxOffB => { g with MaxOffsetB := decVal }
  | .meanOffA => { g with MeanOffsetA := decVal }
  | .meanOffB => { g with MeanOffsetB := decVal }
  | .backLeafA =>
      match parseLeafIdx n "MLCBacklashLeaf" with
      | some i =>
          if 1 ≤ i ∧ i ≤ 60 then
            { g with MLCBacklashA := dictSet g.MLCBacklashA ("Leaf" ++ toString i) decVal }
          else g
      | none => g
  | .backLeafB =>
      match parseLeafIdx n "MLCBacklashLeaf" with
      | some i =>
          if 1 ≤ i ∧ i ≤ 60 then
            { g with MLCBacklashB := dictSet g.MLCBacklashB ("Leaf" ++ toString i) decVal }
          else g
      | none => g
  | .backMaxA => { g with MLCBacklashMaxA := decVal }
  | .backMaxB => { g with MLCBacklashMaxB := decVal }
  | .backMeanA => { g with MLCBacklashMeanA := decVal }
  | .backMeanB => { g with MLCBacklashMeanB := decVal }
  | .jawX1 => { g with JawX1 := decVal }
  | .jawX2 => { g with JawX2 := decVal }
  | .jawY1 => { g with JawY1 := decVal }
  | .jawY2 => { g with JawY2 := decVal }
  | .parX1 => { g with JawParallelismX1 := decVal }
  | .parX2 => { g with JawParallelismX2 := decVal }
  | .parY1 => { g with JawParallelismY1 := decVal }
  | .parY2 => { g with JawParallelismY2 := decVal }
  | .skipRow => g

/-- One row of `geoModelExtraction`'s loop body. -/
def geoStepRow (g : GeoModel) (row : CsvRow) : GeoModel :=
  let n := pyStripS row.name
  let v := pyStripS row.value
  if n == "" || v == "" then g
  else
    let decVal := (pyDecimal? v).getD (-1)
    geoApply g (geoRoute n) n decVal

/-- The reader loop of `geoModelExtraction` (same error discipline as the
electron loop). -/
def processGeoFile : List (Option CsvRow) → GeoModel → GeoModel × List LogEvent
  | [], g => (g, [])
  | none :: _, g => (g, [.csvParse])
  | some r :: rest, g => processGeoFile rest (geoStepRow g r)

/-- `data_extractor.geoModelExtraction` with every exception handler
applied (the CSV path is again `os.path.join(model.path, "Results.csv")`). -/
def geoModelExtractionCaught (files : List (String × CsvFile))
    (g : GeoModel) : GeoModel × List LogEvent :=
  let p := pyJoinS g.path "Results.csv"
  match files.lookup p with
  | none => (g, [.csvNotFound p])
  | some f => processGeoFile f.rows g

/-- `data_extractor.geoModelExtraction` as a Python call: all exceptions
are caught and logged, so the call never propagates one. -/
def geoModelExtraction (files : List (String × CsvFile))
    (g : GeoModel) : PyResult (GeoModel × List LogEvent) :=
  .ok (geoModelExtractionCaught files g)

/-- `DataProcessor.__init__`: `self.data_path = os.path.join(path, "Results.csv")`. -/
def dataPath (path : String) : String :=
  pyJoinS path "Results.csv"

/-- The branch of `DataProcessor.Run`'s `if/elif` chain a `data_path`
selects. -/
inductive Branch where
  | e6 | e9 | e12 | e16 | x10 | x15 | geo | unknown
deriving DecidableEq

/-- The `if/elif` chain of `DataProcessor.Run`, in source order: each test
is Python substring containment on `self.data_path`. -/
def classify (dp : String) : Branch :=
  if strContains dp "6e" then .e6
  else if strContains dp "9e" then .e9
  else if strContains dp "12e" then .e12
  else if strContains dp "16e" then .e16
  else if strContains dp "10x" then .x10
  else if strContains dp "15x" then .x15
  else if strContains dp "6x" then .geo
  else .unknown

/-- What one `DataProcessor.Run` invocation (without an uploader) produces
when it returns normally: the populated record with the extraction log, or
the printed unknown-beam-type report. -/
inductive RunRecord where
  | eBeam (m : EBeamModel) (log : List LogEvent)
  | geoBeam (g : GeoModel) (log : List LogEvent)
  | unrecognized (dp : String)
deriving DecidableEq

/-- An electron branch of `Run`: construct `EBeamModel()`, then
`set_path(data_path)`, `set_type(t)`,
`set_date(_getDateFromPathName(data_path))` (whose argument may raise
`ValueError`), `set_machine_id(_extract_machine_id(data_path))`, then run
`eModelExtraction` (via `testeModelExtraction` for `6e`, which only
delegates). -/
def runEBranch (files : List (String × CsvFile)) (dp t : String) :
    PyResult RunRecord :=
  match getDateFromPathName dp with
  | .exn e => .exn e
  | .ok d =>
      let m : EBeamModel :=
        { beamType := t, path := dp, date := some d
          machineId := extractMachineId dp, note := ""
          relativeUniformity := 0, relativeOutput := 0 }
      match eModelExtraction files m with
      | .ok (m2, log) => .ok (.eBeam m2 log)
      | .exn e => .exn e

/-- An X-ray branch of `Run` (`"10x"`/`"15x"`): the first statement is
`beam.set_path(self.data_path)`, and attribute lookup of `set_path` on the
fresh `XBeamModel` instance precedes everything else.  `XBeamModel` defines
no `set_path`, so the lookup raises `AttributeError`; the branch that would
need a `set_path` body is unreachable. -/
def runXBranch (_t _dp : String) : PyResult RunRecord :=
  if h : XBeamModel.hasAttr "set_path" = true then absurd h (by decide)
  else .exn (.attributeError "XBeamModel" "set_path")

/-- The geometry branch of `Run` (`"6x"`): `set_path`, `set_type("6x")` and
`set_date` all resolve on `Geo6xfffModel` (inherited from
`AbstractBeamModel`), and `set_date`'s argument
`_getDateFromPathName(data_path)` is evaluated (possibly raising
`ValueError`); the next statement looks up `set_machine_id`, which neither
class defines, so it raises `AttributeError` and `geoModelExtraction` is
never reached from `Run`. -/
def runGeoBranch (dp : String) : PyResult RunRecord :=
  match getDateFromPathName dp with
  | .exn e => .exn e
  | .ok _ =>
      if h : geoHasAttr "set_machine_id" = true then absurd h (by decide)
      else .exn (.attributeError "Geo6xfffModel" "set_machine_id")

/-- `DataProcessor.Run` for a processor constructed without Supabase
credentials (`self.uploader is None`, so the upload calls are skipped):
classify `data_path`, run the selected branch, or print the
unknown-beam-type report and return.  The run only ever opens CSV files,
so it depends on `fs.csvFiles` alone. -/
def Run (fs : FileSystem) (path : String) : PyResult RunRecord :=
  let dp := dataPath path
  match classify dp with
  | .e6 => runEBranch fs.csvFiles dp "6e"
  | .e9 => runEBranch fs.csvFiles dp "9e"
  | .e12 => runEBranch fs.csvFiles dp "12e"
  | .e16 => runEBranch fs.csvFiles dp "16e"
  | .x10 => runXBranch "10x" dp
  | .x15 => runXBranch "15x" dp
  | .geo => runGeoBranch dp
  | .unknown => .ok (.unrecognized dp)

/-! Concrete folders and exports used to settle the claims. -/

/-- A run with no files present at all (in particular no `Check.xml`). -/
def fsEmpty : FileSystem := ⟨[], []⟩

/-- The scenario-A folder path. -/
def pA : String := "NDS-WKS-SN6543-2025-09-19-07-41-49-0004-BeamCheckTemplate6e"

/-- Its `data_path`. -/
def dpA : String := dataPath pA

/-- The scenario-A `Results.csv` rows. -/
def rowsA : List (Option CsvRow) :=
  [some ⟨"BeamOutputChange [%]", "0.98"⟩, some ⟨"BeamUniformityChange [%]", "0.12"⟩]

/-- A file system carrying the scenario-A export at `<folder>/Results.csv`. -/
def fsA : FileSystem := ⟨[(dpA, ⟨rowsA⟩)], []⟩

/-- The synthetic round-trip rows of the spec. -/
def rowsSynth : List (Option CsvRow) :=
  [some ⟨"BeamOutputChange [%]", "1.5"⟩, some ⟨"BeamUniformityChange [%]", "-0.3"⟩]

/-- A well-formed folder path whose only beam-type token is `2.5x`. -/
def p25x : String := "NDS-WKS-SN1234-2025-01-02-03-04-05-0001-BeamCheckTemplate2.5x"

/-- A well-formed folder path carrying the token `16e`. -/
def p16e : String := "NDS-WKS-SN1234-2025-01-02-03-04-05-0001-BeamCheckTemplate16e"

/-- A well-formed folder path carrying the token `10x`. -/
def p10x : String := "NDS-WKS-SN1234-2025-01-02-03-04-05-0001-BeamCheckTemplate10x"

/-- A well-formed folder path carrying the token `15x`. -/
def p15x : String := "NDS-WKS-SN1234-2025-01-02-03-04-05-0001-BeamCheckTemplate15x"

/-- A folder path containing both `6x` and the `BeamCheckTemplate6xFFF`
marker. -/
def pFFF : String := "NDS-WKS-SN1234-2025-01-02-03-04-05-0001-BeamCheckTemplate6xFFF"

/-- The scenario-B geometry folder path. -/
def pGeo : String :=
  "NDS-WKS-SN1234-2025-01-02-03-04-05-0008-GeometryCheckTemplate6xMVkVEnhancedCouch"

/-- A folder path with a date but no `SN<digits>` pattern. -/
def pNoSN : String := "NDS-WKS-2025-01-02-03-04-05-0001-BeamCheckTemplate6e"

/-- A well-formed folder path carrying the token `9e`. -/
def p9e : String := "NDS-WKS-SN7777-2025-03-04-05-06-07-0002-BeamCheckTemplate9e"

/-- A path with no beam-type token at all. -/
def pNone : String := "NDS-WKS-SN1234-2025-01-02-03-04-05-0001-SomethingUnrelated"

/-- A fresh electron model pointed at a folder, as the extractor expects. -/
def mFolder : EBeamModel := { EBeamModel.init with path := "folder" }

/-- An export whose single row matches no electron field pattern. -/
def rowsOther : List (Option CsvRow) := [some ⟨"SomeOtherMetric [mm]", "3.14"⟩]

/-- That export installed at `folder/Results.csv`. -/
def filesOther : List (String × CsvFile) := [("folder/Results.csv", ⟨rowsOther⟩)]

/-! Helper lemmas shared by the claim proofs. -/

/-- Processing one row never touches the machine id. -/
theorem eStepRow_machineId (m : EBeamModel) (r : CsvRow) :
    (eStepRow m r).machineId = m.machineId := by
  unfold eStepRow
  dsimp only
  split
  · rfl
  · split
    · rfl
    · split <;> rfl

/-- The reader loop never touches the machine id. -/
theorem processEFile_machineId (rows : List (Option CsvRow)) (m : EBeamModel) :
    (processEFile rows m).1.machineId = m.machineId := by
  induction rows generalizing m with
  | nil => rfl
  | cons r rest ih =>
      cases r with
      | none => rfl
      | some c => rw [processEFile, ih, eStepRow_machineId]

/-- The whole (caught) extraction never touches the machine id. -/
theorem eCaught_machineId (files : List (String × CsvFile)) (m : EBeamModel) :
    (eModelExtractionCaught files m).1.machineId = m.machineId := by
  unfold eModelExtractionCaught
  dsimp only
  split
  · rfl
  · exact processEFile_machineId _ _

/-- A row whose (stripped) name does not contain `BeamOutputChange` leaves
`relative_output` unchanged. -/
theorem eStepRow_relativeOutput_of_noMatch (m : EBeamModel) (r : CsvRow)
    (h : strContains (pyStripS r.name) "BeamOutputChange" = false) :
    (eStepRow m r).relativeOutput = m.relativeOutput := by
  unfold eStepRow
  dsimp only
  split
  · rfl
  · rw [h]
    simp only [if_false, Bool.false_eq_true]
    split <;> rfl

/-- The X-ray branch always dies on the `set_path` attribute lookup. -/
theorem runXBranch_eq (t dp : String) :
    runXBranch t dp = .exn (.attributeError "XBeamModel" "set_path") := rfl

/-- C1: the dispatcher evaluated at the claim's synthetic paths.  A path
whose only supported token is `2.5x` falls through every branch to the
unknown-beam-type report and no record is built; a path carrying `16e` is
captured by the earlier `"6e"` substring test and yields an electron record
whose `beam_type` is `"6e"`, not `"16e"`; a `10x` path dies with
`AttributeError` on `XBeamModel.set_path` before any record is configured;
a path with no supported token yields the unknown-beam-type report. -/
theorem C1_dispatch_eval :
    Run fsEmpty p25x = .ok (.unrecognized (dataPath p25x))
    ∧ Run fsEmpty p16e =
        .ok (.eBeam
          { beamType := "6e", path := dataPath p16e
            date := some ⟨2025, 1, 2, 3, 4, 5⟩, machineId := "SN1234", note := ""
            relativeUniformity := 0, relativeOutput := 0 }
          [.csvNotFound (pyJoinS (dataPath p16e) "Results.csv")])
    ∧ Run fsEmpty p10x = .exn (.attributeError "XBeamModel" "set_path")
    ∧ Run fsEmpty pNone = .ok (.unrecognized (dataPath pNone)) := by
  refine ⟨by decide, by decide, by decide, by decide⟩

/-- C4: the scenario-A run.  The dispatcher does classify the folder as
`6e`, parses `SN6543` and `2025-09-19T07:41:49` from the path, but the
extractor joins another `"Results.csv"` onto the model path (which is
already `<folder>/Results.csv`), finds no file at
`<folder>/Results.csv/Results.csv`, logs the failure and leaves
`relative_output`/`relative_uniformity` at the constructor default `0`
instead of `0.98`/`0.12`.  The remaining conjuncts show the row-level
mapping itself is correct: fed the rows directly, the reader loop yields
`0.98`/`0.12`, and the synthetic rows yield `1.5`/`-0.3`. -/
theorem C4_scenarioA_eval :
    Run fsA pA =
      .ok (.eBeam
        { beamType := "6e", path := dpA
          date := some ⟨2025, 9, 19, 7, 41, 49⟩, machineId := "SN6543", note := ""
          relativeUniformity := 0, relativeOutput := 0 }
        [.csvNotFound (pyJoinS dpA "Results.csv")])
    ∧ (processEFile rowsA EBeamModel.init).1.relativeOutput = mkRat 98 100
    ∧ (processEFile rowsA EBeamModel.init).1.relativeUniformity = mkRat 12 100
    ∧ (processEFile rowsSynth EBeamModel.init).1.relativeOutput = mkRat 15 10
    ∧ (processEFile rowsSynth EBeamModel.init).1.relativeUniformity = mkRat (-3) 10 := by
  refine ⟨by decide, by decide, by decide, by decide, by decide⟩

/-- C2 (counterexample): on a freshly constructed `Geo6xfffModel` (leaf map
keyed 11–50), extracting the field name `"MLCLeavesA/MLCLeaf60 [mm]"` is
not dropped: the parsed index 60 passes the extractor's 1–60 range check
and the setter inserts a new key `Leaf60` into the leaf map, so the field
map changes. -/
theorem C2_leaf60_counterexample :
    (geoStepRow GeoModel.init ⟨"MLCLeavesA/MLCLeaf60 [mm]", "1.0"⟩).MLCLeavesA.lookup "Leaf60"
      = some 1
    ∧ GeoModel.init.MLCLeavesA.lookup "Leaf60" = none
    ∧ ¬ geoStepRow GeoModel.init ⟨"MLCLeavesA/MLCLeaf60 [mm]", "1.0"⟩ = GeoModel.init := by
  refine ⟨by decide, by decide, by decide⟩

/-- C2 (amended): an indexed MLC field name whose parsed leaf index lies
outside the extractor's validation range 1–60 is silently discarded and the
record is unchanged; an index inside 1–60 but outside the record's 11–50
key span (such as 60, shown in the counterexample) is not discarded — the
setter adds a new key to the map. -/
theorem C2_leaf_range_amended :
    ∀ (g : GeoModel) (row : CsvRow) (i : Int),
      pyStripS row.name ≠ "" →
      pyStripS row.value ≠ "" →
      geoRoute (pyStripS row.name) = GeoRoute.leafA →
      parseLeafIdx (pyStripS row.name) "MLCLeaf" = some i →
      ¬(1 ≤ i ∧ i ≤ 60) →
      geoStepRow g row = g := by
  intro g row i hn hv hroute hidx hrange
  simp only [geoStepRow, beq_eq_false_iff_ne.mpr hn, beq_eq_false_iff_ne.mpr hv,
    Bool.or_self, Bool.false_eq_true, if_false, hroute, geoApply, hidx, if_neg hrange]

/-- C2 (witness): the spec's own example index 75 lies outside 1–60, so the
row is dropped and the record is unchanged. -/
theorem C2_leaf_range_witness :
    geoStepRow GeoModel.init ⟨"MLCLeavesA/MLCLeaf75 [mm]", "2.0"⟩ = GeoModel.init :=
  C2_leaf_range_amended GeoModel.init ⟨"MLCLeavesA/MLCLeaf75 [mm]", "2.0"⟩ 75
    (by decide) (by decide) (by decide) (by decide) (by decide)

/-- C3 (counterexample): extracting an export in which no row matches an
electron field pattern returns normally and leaves `relative_output` at the
constructor default `0`, not at the sentinel `-1`. -/
theorem C3_default_counterexample :
    eModelExtraction filesOther mFolder = .ok (mFolder, [])
    ∧ (eModelExtractionCaught filesOther mFolder).1.relativeOutput = 0
    ∧ ¬ (eModelExtractionCaught filesOther mFolder).1.relativeOutput = -1 := by
  refine ⟨by decide, by decide, by decide⟩

/-- C3 (amended): numeric fields the export never matches keep the
constructor default `Decimal('0.0')` (indistinguishable from a legitimate
zero reading); the sentinel `-1` is only ever assigned when a matched
value fails numeric parsing.  Shown for `relative_output`: the constructor
defaults are `0`, and any export none of whose rows matches
`BeamOutputChange` leaves `relative_output` exactly as constructed. -/
theorem C3_default_amended :
    (EBeamModel.init.relativeOutput = 0 ∧ EBeamModel.init.relativeUniformity = 0
      ∧ GeoModel.init.relative_output = 0 ∧ GeoModel.init.IsoCenterSize = 0)
    ∧ ∀ (m : EBeamModel) (rows : List (Option CsvRow)),
        rows.all (fun x =>
          match x with
          | some r => !strContains (pyStripS r.name) "BeamOutputChange"
          | none => true) = true →
        (processEFile rows m).1.relativeOutput = m.relativeOutput := by
  refine ⟨⟨by decide, by decide, by decide, by decide⟩, ?_⟩
  intro m rows h
  induction rows generalizing m with
  | nil => rfl
  | cons x rest ih =>
      rw [List.all_cons, Bool.and_eq_true] at h
      cases x with
      | none => rfl
      | some c =>
          have hc : strContains (pyStripS c.name) "BeamOutputChange" = false := by
            simpa using h.1
          simp only [processEFile]
          rw [ih (eStepRow m c) h.2, eStepRow_relativeOutput_of_noMatch m c hc]

/-- C3 (witness): the amended preservation statement applied to the
concrete no-match export. -/
theorem C3_default_witness :
    (processEFile rowsOther mFolder).1.relativeOutput = mFolder.relativeOutput :=
  C3_default_amended.2 mFolder rowsOther (by decide)

/-- C5 (counterexample): a path containing both `6x` and the
`BeamCheckTemplate6xFFF` marker is dispatched to the geometry branch
(`Geo6xfffModel`), not to an Electron/X-ray path; there is no marker test
anywhere in `Run`, and the run then dies on the missing `set_machine_id`. -/
theorem C5_fff_counterexample :
    strContains (dataPath pFFF) "BeamCheckTemplate6xFFF" = true
    ∧ classify (dataPath pFFF) = Branch.geo
    ∧ Run fsEmpty pFFF = .exn (.attributeError "Geo6xfffModel" "set_machine_id") := by
  refine ⟨by decide, by decide, by decide⟩

/-- C5 (amended): every path containing `6x` and none of the
earlier-checked tokens — with or without the `BeamCheckTemplate6xFFF`
marker — is classified to the geometry branch, where the run constructs a
`Geo6xfffModel`, and (when the path carries a parseable date) aborts with
`AttributeError` on the undefined `set_machine_id` before the geometry
extraction executes. -/
theorem C5_sixx_geo_amended :
    ∀ (fs : FileSystem) (p : String) (d : PyDateTime),
      strContains (dataPath p) "6x" = true →
      strContains (dataPath p) "6e" = false →
      strContains (dataPath p) "9e" = false →
      strContains (dataPath p) "12e" = false →
      strContains (dataPath p) "16e" = false →
      strContains (dataPath p) "10x" = false →
      strContains (dataPath p) "15x" = false →
      getDateFromPathName (dataPath p) = .ok d →
      classify (dataPath p) = Branch.geo
      ∧ Run fs p = .exn (.attributeError "Geo6xfffModel" "set_machine_id") := by
  intro fs p d h6x h6e h9e h12e h16e h10 h15 hdate
  have hc : classify (dataPath p) = Branch.geo := by
    simp [classify, h6x, h6e, h9e, h12e, h16e, h10, h15]
  refine ⟨hc, ?_⟩
  simp only [Run, hc]
  simp only [runGeoBranch, hdate]
  rw [dif_neg (by decide : ¬ geoHasAttr "set_machine_id" = true)]

/-- C5 (witness): the scenario-B geometry path (no FFF marker) satisfies
every hypothesis and is routed to the geometry branch. -/
theorem C5_sixx_geo_witness :
    classify (dataPath pGeo) = Branch.geo
    ∧ Run fsEmpty pGeo = .exn (.attributeError "Geo6xfffModel" "set_machine_id") :=
  C5_sixx_geo_amended fsEmpty pGeo ⟨2025, 1, 2, 3, 4, 5⟩
    (by decide) (by decide) (by decide) (by decide) (by decide) (by decide) (by decide)
    (by decide)

/-- C6: a row whose name matches the output pattern but whose value fails
`Decimal` parsing sets `relative_output` to the sentinel `-1`, and
processing that row hands control to the rest of the export (the reader
loop continues with the remaining rows). -/
theorem C6_malformed_value :
    ∀ (m : EBeamModel) (row : CsvRow) (rest : List (Option CsvRow)),
      pyStripS row.name ≠ "" →
      pyStripS row.value ≠ "" →
      strContains (pyStripS row.name) "BeamOutputChange" = true →
      pyDecimal? (pyStripS row.value) = none →
      (eStepRow m row).relativeOutput = -1
      ∧ processEFile (some row :: rest) m = processEFile rest (eStepRow m row) := by
  intro m row rest hn hv hmatch hdec
  refine ⟨?_, rfl⟩
  simp [eStepRow, beq_eq_false_iff_ne.mpr hn, beq_eq_false_iff_ne.mpr hv, hmatch, hdec]

/-- C6 (witness): the spec's `"N/A"` value on an output row yields `-1`
and the uniformity row after it is still processed. -/
theorem C6_malformed_value_witness :
    (eStepRow EBeamModel.init ⟨"BeamOutputChange [%]", "N/A"⟩).relativeOutput = -1
    ∧ processEFile
        (some ⟨"BeamOutputChange [%]", "N/A"⟩ :: [some ⟨"BeamUniformityChange [%]", "0.12"⟩])
        EBeamModel.init
      = processEFile [some ⟨"BeamUniformityChange [%]", "0.12"⟩]
          (eStepRow EBeamModel.init ⟨"BeamOutputChange [%]", "N/A"⟩) :=
  C6_malformed_value EBeamModel.init ⟨"BeamOutputChange [%]", "N/A"⟩
    [some ⟨"BeamUniformityChange [%]", "0.12"⟩]
    (by decide) (by decide) (by decide) (by decide)

/-- C7 (counterexample): with no `Check.xml` anywhere (the file system is
empty), the `9e` pipeline does not abort with any marker-file failure: it
runs to completion, attempts the numeric extraction (logging the missing
CSV), and returns a record.  `Run` contains no call to
`_getIsBaselineFromPathName` at all. -/
theorem C7_marker_counterexample :
    fileExists fsEmpty (pyJoinS (pyDirname (dataPath p9e)) "Check.xml") = false
    ∧ Run fsEmpty p9e =
        .ok (.eBeam
          { beamType := "9e", path := dataPath p9e
            date := some ⟨2025, 3, 4, 5, 6, 7⟩, machineId := "SN7777", note := ""
            relativeUniformity := 0, relativeOutput := 0 }
          [.csvNotFound (pyJoinS (dataPath p9e) "Results.csv")]) := by
  refine ⟨by decide, by decide⟩

/-- C7 (amended): the resolver `_getIsBaselineFromPathName` does fail hard
with `FileNotFoundError` when `Check.xml` is absent (never defaulting to
false), but `DataProcessor.Run` never invokes it: the run's result is
independent of the XML files present, and a record's baseline flag keeps
its constructor default `False`. -/
theorem C7_marker_amended :
    (∀ (fs : FileSystem) (p : String),
        fileExists fs (pyJoinS (pyDirname p) "Check.xml") = false →
        getIsBaselineFromPathName fs p
          = .exn (.fileNotFound (pyJoinS (pyDirname p) "Check.xml")))
    ∧ (∀ (csvs : List (String × CsvFile)) (xmls xmls' : List (String × XmlDoc)) (p : String),
        Run ⟨csvs, xmls⟩ p = Run ⟨csvs, xmls'⟩ p)
    ∧ GeoModel.init.baseline = false := by
  refine ⟨?_, ?_, rfl⟩
  · intro fs p h
    simp [getIsBaselineFromPathName, h]
  · intro csvs xmls xmls' p
    rfl

/-- C7 (witness): the resolver raises `FileNotFoundError` on the concrete
`9e` folder when the file system holds no `Check.xml`. -/
theorem C7_marker_witness :
    getIsBaselineFromPathName fsEmpty (dataPath p9e)
      = .exn (.fileNotFound (pyJoinS (pyDirname (dataPath p9e)) "Check.xml")) :=
  C7_marker_amended.1 fsEmpty (dataPath p9e) (by decide)

/-- C8 (counterexample): a `6e` folder whose path carries no `SN<digits>`
pattern is not fatal and a record is constructed: machine-serial resolution
yields the placeholder `"UNKNOWN"` and the run completes normally. -/
theorem C8_serial_counterexample :
    findSN (dataPath pNoSN).data = none
    ∧ Run fsEmpty pNoSN =
        .ok (.eBeam
          { beamType := "6e", path := dataPath pNoSN
            date := some ⟨2025, 1, 2, 3, 4, 5⟩, machineId := "UNKNOWN", note := ""
            relativeUniformity := 0, relativeOutput := 0 }
          [.csvNotFound (pyJoinS (dataPath pNoSN) "Results.csv")]) := by
  refine ⟨by decide, by decide⟩

/-- C8 (amended): when the `SN<digits>` pattern is present both resolvers
return the `SN`-prefixed serial; when it is absent,
`DataProcessor._extract_machine_id` (the resolver `Run` actually uses)
returns the placeholder `"UNKNOWN"` and the pipeline continues and builds
the record with that placeholder, while the unused helper
`_getSNFromPathName` would raise `ValueError`. -/
theorem C8_serial_amended :
    (∀ p : String, findSN p.data = none →
        extractMachineId p = "UNKNOWN"
        ∧ getSNFromPathName p
            = .exn (.valueError ("Could not extract serial number from path: " ++ p)))
    ∧ (∀ (p : String) (ds : List Char), findSN p.data = some ds →
        extractMachineId p = "SN" ++ (⟨ds⟩ : String)
        ∧ getSNFromPathName p = .ok ("SN" ++ (⟨ds⟩ : String)))
    ∧ (∀ (fs : FileSystem) (p : String) (d : PyDateTime),
        strContains (dataPath p) "6e" = true →
        findSN (dataPath p).data = none →
        getDateFromPathName (dataPath p) = .ok d →
        ∃ (m : EBeamModel) (log : List LogEvent),
          Run fs p = .ok (.eBeam m log) ∧ m.machineId = "UNKNOWN") := by
  refine ⟨?_, ?_, ?_⟩
  · intro p h
    exact ⟨by simp [extractMachineId, h], by simp [getSNFromPathName, h]⟩
  · intro p ds h
    exact ⟨by simp [extractMachineId, h], by simp [getSNFromPathName, h]⟩
  · intro fs p d h6e hsn hdate
    have hc : classify (dataPath p) = Branch.e6 := by
      simp [classify, h6e]
    simp only [Run, hc, runEBranch, hdate, eModelExtraction]
    refine ⟨_, _, rfl, ?_⟩
    rw [eCaught_machineId]
    simp [extractMachineId, hsn]

/-- C8 (witness): the amended statement instantiated at the serial-free
`6e` folder. -/
theorem C8_serial_witness :
    extractMachineId (dataPath pNoSN) = "UNKNOWN"
    ∧ ∃ (m : EBeamModel) (log : List LogEvent),
        Run fsEmpty pNoSN = .ok (.eBeam m log) ∧ m.machineId = "UNKNOWN" :=
  ⟨(C8_serial_amended.1 (dataPath pNoSN) (by decide)).1,
   C8_serial_amended.2.2 fsEmpty pNoSN ⟨2025, 1, 2, 3, 4, 5⟩
     (by decide) (by decide) (by decide)⟩

/-- C9 (counterexample): with the export file absent, the extraction call
does not fail: it catches the `FileNotFoundError`, logs the path it tried,
and returns normally with the model untouched — the caller receives an
ordinary return value, not an exception. -/
theorem C9_swallow_counterexample :
    eModelExtraction [] mFolder = .ok (mFolder, [.csvNotFound "folder/Results.csv"])
    ∧ PyResult.isOk (eModelExtraction [] mFolder) = true := by
  refine ⟨by decide, by decide⟩

/-- C9 (amended): `data_extractor.eModelExtraction` never propagates an
exception to its caller — missing files and malformed documents are caught
and only logged — and on a malformed row the loop stops, the failure is
logged, and the fields populated by the rows before it are retained (not
rolled back), while the rows after it go unprocessed. -/
theorem C9_swallow_amended :
    (∀ (files : List (String × CsvFile)) (m : EBeamModel),
        PyResult.isOk (eModelExtraction files m) = true)
    ∧ (∀ (m : EBeamModel) (r : CsvRow) (rest : List (Option CsvRow)),
        processEFile (some r :: (none : Option CsvRow) :: rest) m
          = (eStepRow m r, [LogEvent.csvParse])) :=
  ⟨fun _ _ => rfl, fun _ _ _ => rfl⟩

/-- C10: every folder whose `data_path` contains `10x` or `15x` (and none
of the electron tokens checked earlier) makes `Run` die with
`AttributeError` at its first statement, `beam.set_path(...)`, because
`XBeamModel` defines none of `set_path`, `set_machine_id`, `get_path`,
`set_relative_output`, `set_center_shift`; no X-ray record is ever
populated or returned. -/
theorem C10_xray_attribute_error :
    ∀ (fs : FileSystem) (p : String),
      (strContains (dataPath p) "10x" = true ∨ strContains (dataPath p) "15x" = true) →
      strContains (dataPath p) "6e" = false →
      strContains (dataPath p) "9e" = false →
      strContains (dataPath p) "12e" = false →
      strContains (dataPath p) "16e" = false →
      Run fs p = .exn (.attributeError "XBeamModel" "set_path")
      ∧ XBeamModel.hasAttr "set_path" = false
      ∧ XBeamModel.hasAttr "set_machine_id" = false
      ∧ XBeamModel.hasAttr "get_path" = false
      ∧ XBeamModel.hasAttr "set_relative_output" = false
      ∧ XBeamModel.hasAttr "set_center_shift" = false := by
  intro fs p hx h6e h9e h12e h16e
  refine ⟨?_, by decide, by decide, by decide, by decide, by decide⟩
  rcases hx with h10 | h15
  · have hc : classify (dataPath p) = Branch.x10 := by
      simp [classify, h6e, h9e, h12e, h16e, h10]
    simp only [Run, hc, runXBranch_eq]
  · cases hb : strContains (dataPath p) "10x" with
    | true =>
        have hc : classify (dataPath p) = Branch.x10 := by
          simp [classify, h6e, h9e, h12e, h16e, hb]
        simp only [Run, hc, runXBranch_eq]
    | false =>
        have hc : classify (dataPath p) = Branch.x15 := by
          simp [classify, h6e, h9e, h12e, h16e, hb, h15]
        simp only [Run, hc, runXBranch_eq]

/-- C10 (witness): the concrete `15x` folder dies with `AttributeError` on
`set_path`, and the five methods are indeed absent from `XBeamModel`. -/
theorem C10_xray_attribute_error_witness :
    Run fsEmpty p15x = .exn (.attributeError "XBeamModel" "set_path")
    ∧ XBeamModel.hasAttr "set_path" = false
    ∧ XBeamModel.hasAttr "set_machine_id" = false
    ∧ XBeamModel.hasAttr "get_path" = false
    ∧ XBeamModel.hasAttr "set_relative_output" = false
    ∧ XBeamModel.hasAttr "set_center_shift" = false :=
  C10_xray_attribute_error fsEmpty p15x (Or.inr (by decide))
    (by decide) (by decide) (by decide) (by decide)

end MPC
